import Mathlib

/-!
Shallow embedding of the taxibuffer browser client.

Source files embedded here:
- queueing/static/queueing/js/queue_status.js : class QueueManager
  (notification state machine in handleNotification / hideNotification /
  respondToNotification, the status fetcher updateStatus, and the
  wall-clock-aligned polling scheduler in startAlignedPolling /
  setupSelfCorrectingInterval / calculateNextBoundaryDelay), plus the
  service-worker message listener installed by
  setupServiceWorkerMessageListener.
- the service-worker script (push event listener): the push bridge that
  displays a system notification and posts REFRESH_STATUS messages to
  open window clients.

DOM rendering, CSS, CSRF plumbing and the network itself are external
collaborators: network results enter the model as explicit outcome values,
and user-visible effects (alerts, surfacing a notification dialog,
scheduled extra fetches, posted messages) are returned as observable
output fields next to the new state.
-/

namespace TaxiBuffer

/-- Server-side notification record inside a status snapshot:
the fields of data.notification that queue_status.js reads. -/
structure NotificationRec where
  id : String
  is_expired : Bool
deriving DecidableEq

/-- Status snapshot: the parsed JSON body of a status fetch. -/
structure Snapshot where
  success : Bool
  position : Option Int
  has_notification : Bool
  notification : Option NotificationRec
deriving DecidableEq

/-- Mutable engine state of QueueManager (this.state), restricted to the
non-timer fields; the timer handles are modelled separately as SchedState. -/
structure EngineState where
  currentNotificationId : Option String
  shownNotifications : Option (List String)
  isConnected : Bool
  retryCount : Nat
  initialUpdateDone : Bool
deriving DecidableEq

/-- The engine state built by the QueueManager constructor. -/
def EngineState.initial : EngineState :=
  { currentNotificationId := none, shownNotifications := none,
    isConnected := false, retryCount := 0, initialUpdateDone := false }

/-- The dedup set: this.state.shownNotifications, a lazily initialised
object whose keys are the notification ids already surfaced; absent
(undefined) reads as empty. -/
def shownSet (s : EngineState) : List String :=
  s.shownNotifications.getD []

/-- Embeds QueueManager.hideNotification: clears the active id. -/
def hideNotification (s : EngineState) : EngineState :=
  { s with currentNotificationId := none }

/-- Result of handleNotification: the new state plus the id of the
notification surfaced by this call (the scheduled
showPushReceivedFeedback dialog), if any. -/
structure HandleResult where
  state : EngineState
  surfaced : Option String
deriving DecidableEq

/-- Embeds QueueManager.handleNotification. The source computes
hasActiveNotification from data.has_notification, the presence of
data.notification and its is_expired flag; on an active notification it
always stores the id in currentNotificationId, lazily initialises the
shownNotifications object, and schedules the user-visible dialog only
when the id was not yet a key of it; otherwise it calls hideNotification. -/
def handleNotification (s : EngineState) (data : Snapshot) : HandleResult :=
  match data.notification with
  | some n =>
    if data.has_notification && !n.is_expired then
      let s1 := { s with currentNotificationId := some n.id }
      let shown := shownSet s1
      if n.id ∈ shown then
        { state := { s1 with shownNotifications := some shown }, surfaced := none }
      else
        { state := { s1 with shownNotifications := some (n.id :: shown) },
          surfaced := some n.id }
    else
      { state := hideNotification s, surfaced := none }
  | none => { state := hideNotification s, surfaced := none }

/-- Runs handleNotification over a sequence of snapshots (any interleaving
of aligned-poll and push-triggered fetches delivers snapshots one at a
time on the single-threaded queue); returns the final state and the list
of surfaced notification ids, in order. -/
def runSnapshots (s : EngineState) : List Snapshot → EngineState × List String
  | [] => (s, [])
  | d :: ds =>
    let r := handleNotification s d
    let rest := runSnapshots r.state ds
    (rest.1, r.surfaced.toList ++ rest.2)

/-- Outcome of one status fetch as updateStatus classifies it: a network
error (fetch rejected), a non-OK transport status, or a parsed payload
(whose own success flag may still be false). -/
inductive FetchOutcome where
  | networkError : FetchOutcome
  | httpError : Nat → FetchOutcome
  | payload : Snapshot → FetchOutcome
deriving DecidableEq

/-- A fetch outcome that lands in the catch block of updateStatus:
network error, non-OK transport status, or payload success flag false. -/
def FetchOutcome.isFailure : FetchOutcome → Bool
  | .networkError => true
  | .httpError _ => true
  | .payload d => !d.success

/-- Result of updateStatus: new state, whether the connectivity alert
(shown when retryCount reaches 3) was emitted, and the id surfaced by
handleNotification on the success path, if any. -/
structure UpdateResult where
  state : EngineState
  connectivityAlert : Bool
  surfaced : Option String
deriving DecidableEq

/-- The catch block of updateStatus: increment retryCount, set the
connection status to disconnected, and show the friendly alert once the
incremented count is at least 3. -/
def updateStatusFailure (s : EngineState) : UpdateResult :=
  let s1 := { s with retryCount := s.retryCount + 1, isConnected := false }
  { state := s1, connectivityAlert := decide (3 ≤ s1.retryCount), surfaced := none }

/-- Embeds QueueManager.updateStatus. A non-OK response or an
unsuccessful payload throws into the catch block; on success the retry
counter resets, the connection shows connected, and the snapshot is
handed to handleNotification. -/
def updateStatus (s : EngineState) (outcome : FetchOutcome) : UpdateResult :=
  match outcome with
  | .payload d =>
    if d.success then
      let s1 := { s with retryCount := 0, isConnected := true }
      let r := handleNotification s1 d
      { state := r.state, connectivityAlert := false, surfaced := r.surfaced }
    else updateStatusFailure s
  | .networkError => updateStatusFailure s
  | .httpError _ => updateStatusFailure s

/-- Runs updateStatus over a sequence of fetch outcomes; returns the
final state and how many connectivity alerts were emitted. -/
def runUpdates (s : EngineState) : List FetchOutcome → EngineState × Nat
  | [] => (s, 0)
  | o :: os =>
    let r := updateStatus s o
    let rest := runUpdates r.state os
    (rest.1, (if r.connectivityAlert then 1 else 0) + rest.2)

/-- User verdict sent by respondToNotification in the POST body. -/
inductive Verdict where
  | accepted : Verdict
  | declined : Verdict
deriving DecidableEq

/-- Parsed JSON body of the respond endpoint's reply. -/
structure RespondPayload where
  success : Bool
  message : Option String
  error : Option String
deriving DecidableEq

/-- Transport result of the respond POST: rejection of fetch itself, or a
response whose JSON body parsed. -/
inductive RespondTransport where
  | networkError : RespondTransport
  | response : RespondPayload → RespondTransport
deriving DecidableEq

/-- Result of respondToNotification: new state, which alert was shown,
the POST bodies actually sent (notification id and verdict), the delays
of extra updateStatus calls scheduled via setTimeout, and the promise
outcome (ok, or the rejection reason). -/
structure RespondResult where
  state : EngineState
  errorAlert : Bool
  successAlert : Bool
  posted : List (String × Verdict)
  scheduledRefreshDelays : List Nat
  outcome : Except String Unit

/-- Embeds QueueManager.respondToNotification. With no active
notification it shows an error alert and rejects without a network call.
Otherwise it POSTs the id and verdict; a successful payload shows the
success alert, clears the notification and schedules one extra
updateStatus 1000 ms later; a network error or unsuccessful payload lands
in the catch block, which shows an error alert and rejects, leaving the
state untouched. -/
def respondToNotification (s : EngineState) (v : Verdict) (net : RespondTransport) :
    RespondResult :=
  match s.currentNotificationId with
  | none =>
    { state := s, errorAlert := true, successAlert := false, posted := [],
      scheduledRefreshDelays := [], outcome := Except.error "No active notification" }
  | some nid =>
    match net with
    | .networkError =>
      { state := s, errorAlert := true, successAlert := false, posted := [(nid, v)],
        scheduledRefreshDelays := [], outcome := Except.error "network error" }
    | .response result =>
      if result.success then
        { state := hideNotification s, errorAlert := false, successAlert := true,
          posted := [(nid, v)], scheduledRefreshDelays := [1000],
          outcome := Except.ok () }
      else
        { state := s, errorAlert := true, successAlert := false, posted := [(nid, v)],
          scheduledRefreshDelays := [], outcome := Except.error "respond failed" }

/-- Embeds calculateNextBoundaryDelay from startAlignedPolling: given the
current wall-clock second and millisecond, the milliseconds until the
next :00 or :30 boundary. -/
def calculateNextBoundaryDelay (seconds ms : Nat) : Int :=
  let secondsToNext : Int := if seconds < 30 then 30 - (seconds : Int) else 60 - (seconds : Int)
  secondsToNext * 1000 - (ms : Int)

/-- Timer state of the scheduler. alignmentTimeout and pollTimer are the
stored handle fields of this.state; liveAligns and livePolls are the
actually live host timers those handles may refer to (a handle can be
stale: clearInterval in the drift branch does not null the field), and
nextId supplies fresh host timer ids. -/
structure SchedState where
  alignmentTimeout : Option Nat
  pollTimer : Option Nat
  liveAligns : List Nat
  livePolls : List Nat
  nextId : Nat
deriving DecidableEq

/-- Timer state before init runs: no handles, no live timers. -/
def SchedState.initial : SchedState :=
  { alignmentTimeout := none, pollTimer := none, liveAligns := [], livePolls := [],
    nextId := 0 }

/-- Embeds scheduleFirstUpdate: arm a one-shot alignment timer and store
its handle. -/
def scheduleFirstUpdate (s : SchedState) : SchedState :=
  { s with liveAligns := s.nextId :: s.liveAligns,
           alignmentTimeout := some s.nextId,
           nextId := s.nextId + 1 }

/-- The clearTimeout branch at the top of startAlignedPolling: kill the
timer named by the stored handle (a no-op on a dead handle) and null the
field. -/
def clearAlignmentTimeout (s : SchedState) : SchedState :=
  match s.alignmentTimeout with
  | some id => { s with liveAligns := s.liveAligns.erase id, alignmentTimeout := none }
  | none => s

/-- The clearInterval branch at the top of startAlignedPolling: kill the
timer named by the stored handle and null the field. -/
def clearPollTimer (s : SchedState) : SchedState :=
  match s.pollTimer with
  | some id => { s with livePolls := s.livePolls.erase id, pollTimer := none }
  | none => s

/-- Embeds QueueManager.startAlignedPolling (timer effects only): clear
both stored timers, then arm the alignment timer via scheduleFirstUpdate. -/
def startAlignedPolling (s : SchedState) : SchedState :=
  scheduleFirstUpdate (clearPollTimer (clearAlignmentTimeout s))

/-- Embeds setupSelfCorrectingInterval: clearInterval on the stored poll
handle if set (without nulling the field), then arm a fresh repeating
timer and store its handle. -/
def setupSelfCorrectingInterval (s : SchedState) : SchedState :=
  let s1 := match s.pollTimer with
    | some id => { s with livePolls := s.livePolls.erase id }
    | none => s
  { s1 with livePolls := s1.nextId :: s1.livePolls, pollTimer := some s1.nextId,
            nextId := s1.nextId + 1 }

/-- Firing of the one-shot alignment timer with host id id: the timer is
consumed, the callback calls setupSelfCorrectingInterval and then nulls
the alignmentTimeout field. -/
def alignmentFire (s : SchedState) (id : Nat) : SchedState :=
  let s1 := { s with liveAligns := s.liveAligns.erase id }
  let s2 := setupSelfCorrectingInterval s1
  { s2 with alignmentTimeout := none }

/-- Firing of the repeating poll timer. atBoundary is the check
(seconds = 0 or 30, sub-second offset below 100 ms): at a boundary the
callback only fetches and the interval stays live; off a boundary it
calls clearInterval on the stored handle (not nulling the field) and
re-arms via scheduleFirstUpdate. -/
def pollFire (s : SchedState) (atBoundary : Bool) : SchedState :=
  if atBoundary then s
  else
    let s1 := match s.pollTimer with
      | some id => { s with livePolls := s.livePolls.erase id }
      | none => s
    scheduleFirstUpdate s1

/-- One scheduler event: an external (re)start, the alignment timer
firing (it must be live to fire), or a live poll timer tick. -/
inductive SchedStep : SchedState → SchedState → Prop where
  | start (s : SchedState) : SchedStep s (startAlignedPolling s)
  | alignFire (s : SchedState) (id : Nat) (hmem : id ∈ s.liveAligns) :
      SchedStep s (alignmentFire s id)
  | pollTick (s : SchedState) (id : Nat) (b : Bool) (hmem : id ∈ s.livePolls) :
      SchedStep s (pollFire s b)

/-- Scheduler states reachable from page load: the constructor calls init,
which calls startAlignedPolling on the fresh state. -/
inductive SchedReachable : SchedState → Prop where
  | init : SchedReachable (startAlignedPolling SchedState.initial)
  | step {s t : SchedState} : SchedReachable s → SchedStep s t → SchedReachable t

/-- Inductive shape invariant of reachable scheduler states: either
exactly one live alignment timer whose id the stored handle names, or
exactly one live repeating timer whose id the stored handle names, or no
live timer at all; live ids are below the fresh-id counter. -/
def SchedInv (s : SchedState) : Prop :=
  (∃ a, s.livePolls = [] ∧ s.liveAligns = [a] ∧ s.alignmentTimeout = some a ∧
    a < s.nextId) ∨
  (∃ p, s.liveAligns = [] ∧ s.livePolls = [p] ∧ s.pollTimer = some p ∧
    p < s.nextId) ∨
  (s.liveAligns = [] ∧ s.livePolls = [])

/-- Message data received by the foreground service-worker message
listener: event.data is either null or an object carrying a type field. -/
structure SWMessageIn where
  type : String
deriving DecidableEq

/-- Embeds the listener installed by setupServiceWorkerMessageListener:
only a non-null event.data with type REFRESH_STATUS triggers
updateStatus with source push_notification; the returned flag records
whether a fetch was triggered. -/
def onServiceWorkerMessage (s : EngineState) (data : Option SWMessageIn)
    (outcome : FetchOutcome) : EngineState × Bool :=
  match data with
  | some m =>
    if m.type = "REFRESH_STATUS" then ((updateStatus s outcome).state, true)
    else (s, false)
  | none => (s, false)

/-- Parsed push payload fields read by the service-worker push listener. -/
structure PushPayload where
  title : Option String
  body : Option String
  tag : Option String
deriving DecidableEq

/-- Data carried by a push event: absent, unparseable (event.data.json()
throws), or parsed. -/
inductive PushEventData where
  | noData : PushEventData
  | malformed : PushEventData
  | parsed : PushPayload → PushEventData
deriving DecidableEq

/-- The system notification the bridge asks the host to display. -/
structure DisplayedNotification where
  title : String
  body : String
  tag : String
deriving DecidableEq

/-- A REFRESH_STATUS message as posted to a window client. -/
structure SWOutMessage where
  type : String
  data : PushPayload
  timestamp : Nat
deriving DecidableEq

/-- Observable effects of one push event: the system notification whose
display was requested (if any) and the messages posted, as pairs of
client id and message. -/
structure PushResult where
  displayRequested : Option DisplayedNotification
  posted : List (Nat × SWOutMessage)
deriving DecidableEq

/-- Embeds the service-worker push event listener. No data: log and
return. Parse failure: caught, no effects. Otherwise the bridge requests
display of the system notification and, in the then-continuation of that
promise, posts REFRESH_STATUS (payload plus timestamp) to every window
client; displayOk says whether the display promise fulfilled, and a
rejected display promise skips the continuation. -/
def onPush (ev : PushEventData) (displayOk : Bool) (clients : List Nat) (now : Nat) :
    PushResult :=
  match ev with
  | .noData => { displayRequested := none, posted := [] }
  | .malformed => { displayRequested := none, posted := [] }
  | .parsed p =>
    let shown : DisplayedNotification :=
      { title := p.title.getD "TaxiBuffer Bericht",
        body := p.body.getD "U mag doorrijden",
        tag := p.tag.getD "taxibuffer-notification" }
    if displayOk then
      { displayRequested := some shown,
        posted := clients.map
          (fun c => (c, { type := "REFRESH_STATUS", data := p, timestamp := now })) }
    else
      { displayRequested := some shown, posted := [] }

/-- Concrete unexpired notification record with id n1. -/
def recN1 : NotificationRec := { id := "n1", is_expired := false }

/-- Concrete unexpired notification record with id n2. -/
def recN2 : NotificationRec := { id := "n2", is_expired := false }

/-- Concrete successful snapshot carrying notification n1. -/
def snapN1 : Snapshot :=
  { success := true, position := some 1, has_notification := true,
    notification := some recN1 }

/-- Concrete successful snapshot carrying notification n2. -/
def snapN2 : Snapshot :=
  { success := true, position := some 1, has_notification := true,
    notification := some recN2 }

/-- Engine state in which notification n1 is active and already shown. -/
def egActive : EngineState :=
  { currentNotificationId := some "n1", shownNotifications := some ["n1"],
    isConnected := true, retryCount := 0, initialUpdateDone := true }

/-- Concrete parsed push payload. -/
def egPayload : PushPayload := { title := some "t", body := some "b", tag := some "g" }

/-- Concrete successful respond payload. -/
def egRespOk : RespondPayload := { success := true, message := none, error := none }

/-- Concrete unsuccessful respond payload. -/
def egRespFail : RespondPayload := { success := false, message := none, error := some "e" }

/-- A failure outcome behaves as the catch block regardless of which of
the three failure modes occurred. -/
theorem updateStatus_of_isFailure (s : EngineState) (o : FetchOutcome)
    (h : o.isFailure = true) : updateStatus s o = updateStatusFailure s := by
  cases o with
  | networkError => rfl
  | httpError st => rfl
  | payload d =>
    have hd : d.success = false := by
      simpa [FetchOutcome.isFailure] using h
    simp [updateStatus, hd]

/-- handleNotification never touches the retry counter. -/
theorem handleNotification_retryCount (s : EngineState) (d : Snapshot) :
    (handleNotification s d).state.retryCount = s.retryCount := by
  unfold handleNotification hideNotification
  cases d.notification with
  | none => rfl
  | some n =>
    dsimp only
    split
    · split <;> rfl
    · rfl

/-- handleNotification never touches the connection flag. -/
theorem handleNotification_isConnected (s : EngineState) (d : Snapshot) :
    (handleNotification s d).state.isConnected = s.isConnected := by
  unfold handleNotification hideNotification
  cases d.notification with
  | none => rfl
  | some n =>
    dsimp only
    split
    · split <;> rfl
    · rfl

/-- C3: for every verdict, calling respondToNotification while no
notification is active fails with the No active notification rejection,
shows an error alert, sends no POST, schedules nothing, and leaves the
engine state unchanged. -/
theorem respond_noActive (s : EngineState) (v : Verdict) (net : RespondTransport)
    (h : s.currentNotificationId = none) :
    respondToNotification s v net =
      { state := s, errorAlert := true, successAlert := false, posted := [],
        scheduledRefreshDelays := [],
        outcome := Except.error "No active notification" } := by
  unfold respondToNotification
  rw [h]

/-- Witness: respond_noActive evaluated on the initial state. -/
theorem respond_noActive_witness :
    respondToNotification EngineState.initial Verdict.accepted
        RespondTransport.networkError =
      { state := EngineState.initial, errorAlert := true, successAlert := false,
        posted := [], scheduledRefreshDelays := [],
        outcome := Except.error "No active notification" } :=
  respond_noActive EngineState.initial Verdict.accepted RespondTransport.networkError rfl

/-- C4: with an active notification and a successful transport and
payload, respondToNotification clears the active id, schedules exactly
one extra status fetch 1000 ms later, shows the success alert, and sent
exactly one POST carrying the id and verdict. -/
theorem respond_success (s : EngineState) (v : Verdict) (nid : String)
    (result : RespondPayload) (hid : s.currentNotificationId = some nid)
    (hok : result.success = true) :
    (respondToNotification s v (RespondTransport.response result)).state.currentNotificationId
        = none ∧
    (respondToNotification s v (RespondTransport.response result)).scheduledRefreshDelays
        = [1000] ∧
    (respondToNotification s v (RespondTransport.response result)).successAlert = true ∧
    (respondToNotification s v (RespondTransport.response result)).posted = [(nid, v)] := by
  simp [respondToNotification, hid, hok, hideNotification]

/-- Witness: respond_success evaluated on a state with active id n1. -/
theorem respond_success_witness :
    (respondToNotification egActive Verdict.accepted
        (RespondTransport.response egRespOk)).state.currentNotificationId = none ∧
    (respondToNotification egActive Verdict.accepted
        (RespondTransport.response egRespOk)).scheduledRefreshDelays = [1000] ∧
    (respondToNotification egActive Verdict.accepted
        (RespondTransport.response egRespOk)).successAlert = true ∧
    (respondToNotification egActive Verdict.accepted
        (RespondTransport.response egRespOk)).posted = [("n1", Verdict.accepted)] :=
  respond_success egActive Verdict.accepted "n1" egRespOk rfl rfl

/-- C5: with an active notification, a failed POST (network error or
payload success flag false) leaves the state unchanged (the active id is
retained for retry), shows an error alert, and schedules no extra fetch. -/
theorem respond_failure (s : EngineState) (v : Verdict) (nid : String)
    (net : RespondTransport) (hid : s.currentNotificationId = some nid)
    (hfail : net = RespondTransport.networkError ∨
      ∃ p, net = RespondTransport.response p ∧ p.success = false) :
    (respondToNotification s v net).state = s ∧
    (respondToNotification s v net).state.currentNotificationId = some nid ∧
    (respondToNotification s v net).errorAlert = true ∧
    (respondToNotification s v net).successAlert = false ∧
    (respondToNotification s v net).scheduledRefreshDelays = [] := by
  rcases hfail with hnet | ⟨p, hp, hps⟩
  · subst hnet
    simp [respondToNotification, hid]
  · subst hp
    simp [respondToNotification, hid, hps]

/-- Witness: respond_failure evaluated on a state with active id n1 and
an unsuccessful payload. -/
theorem respond_failure_witness :
    (respondToNotification egActive Verdict.declined
        (RespondTransport.response egRespFail)).state = egActive ∧
    (respondToNotification egActive Verdict.declined
        (RespondTransport.response egRespFail)).state.currentNotificationId = some "n1" ∧
    (respondToNotification egActive Verdict.declined
        (RespondTransport.response egRespFail)).errorAlert = true ∧
    (respondToNotification egActive Verdict.declined
        (RespondTransport.response egRespFail)).successAlert = false ∧
    (respondToNotification egActive Verdict.declined
        (RespondTransport.response egRespFail)).scheduledRefreshDelays = [] :=
  respond_failure egActive Verdict.declined "n1" (RespondTransport.response egRespFail)
    rfl (Or.inr ⟨egRespFail, rfl, rfl⟩)

/-- C6: for every wall-clock second and millisecond, the alignment delay
matches the stated closed form, is positive and at most 30000 ms, and
lands exactly on a :00 or :30 boundary (offset 0, within tolerance and
never before the boundary). -/
theorem boundaryDelay_correct (s m : Nat) (hs : s ≤ 59) (hm : m ≤ 999) :
    calculateNextBoundaryDelay s m =
      (if s < 30 then (30 - (s : Int)) * 1000 - (m : Int)
       else (60 - (s : Int)) * 1000 - (m : Int)) ∧
    0 < calculateNextBoundaryDelay s m ∧
    calculateNextBoundaryDelay s m ≤ 30000 ∧
    (((s : Int) * 1000 + (m : Int)) + calculateNextBoundaryDelay s m) % 30000 = 0 := by
  have hdef : calculateNextBoundaryDelay s m =
      (if s < 30 then 30 - (s : Int) else 60 - (s : Int)) * 1000 - (m : Int) := rfl
  rcases Nat.lt_or_ge s 30 with h | h
  · rw [hdef, if_pos h, if_pos h]
    refine ⟨by ring, by omega, by omega, by omega⟩
  · rw [hdef, if_neg (Nat.not_lt.mpr h), if_neg (Nat.not_lt.mpr h)]
    refine ⟨by ring, by omega, by omega, by omega⟩

/-- Witness: boundaryDelay_correct evaluated at second 42, millisecond 250. -/
theorem boundaryDelay_correct_witness :
    calculateNextBoundaryDelay 42 250 =
      (if 42 < 30 then (30 - (42 : Int)) * 1000 - (250 : Int)
       else (60 - (42 : Int)) * 1000 - (250 : Int)) ∧
    0 < calculateNextBoundaryDelay 42 250 ∧
    calculateNextBoundaryDelay 42 250 ≤ 30000 ∧
    (((42 : Int) * 1000 + (250 : Int)) + calculateNextBoundaryDelay 42 250) % 30000 = 0 :=
  boundaryDelay_correct 42 250 (by decide) (by decide)

/-- C10: the foreground service-worker message listener triggers a status
fetch exactly when the message data is non-null with type REFRESH_STATUS,
and on any other message it performs no fetch and leaves the engine state
unchanged. -/
theorem swMessage_filter (s : EngineState) (data : Option SWMessageIn)
    (outcome : FetchOutcome) :
    ((onServiceWorkerMessage s data outcome).2 = true ↔
      ∃ m, data = some m ∧ m.type = "REFRESH_STATUS") ∧
    ((onServiceWorkerMessage s data outcome).2 = false →
      onServiceWorkerMessage s data outcome = (s, false)) := by
  cases data with
  | none => simp [onServiceWorkerMessage]
  | some m =>
    by_cases h : m.type = "REFRESH_STATUS" <;>
      simp [onServiceWorkerMessage, h]

/-- Witness: swMessage_filter on a null-data message leaves the initial
state untouched and triggers no fetch. -/
theorem swMessage_filter_witness :
    (onServiceWorkerMessage EngineState.initial none FetchOutcome.networkError).2
        = false ∧
    onServiceWorkerMessage EngineState.initial none FetchOutcome.networkError =
      (EngineState.initial, false) :=
  ⟨rfl,
    (swMessage_filter EngineState.initial none FetchOutcome.networkError).2 rfl⟩

/-- The dedup set only ever grows: handleNotification preserves
membership. -/
theorem shownSet_mono (s : EngineState) (d : Snapshot) (x : String)
    (h : x ∈ shownSet s) : x ∈ shownSet (handleNotification s d).state := by
  unfold handleNotification hideNotification
  cases d.notification with
  | none => exact h
  | some n =>
    dsimp only
    split
    · split
      · exact h
      · simp only [shownSet, Option.getD_some]
        exact List.mem_cons_of_mem _ h
    · exact h

/-- A surfaced id is in the dedup set of the resulting state. -/
theorem surfaced_mem (s : EngineState) (d : Snapshot) (x : String) :
    (handleNotification s d).surfaced = some x →
    x ∈ shownSet (handleNotification s d).state := by
  unfold handleNotification hideNotification
  cases d.notification with
  | none => intro h; exact absurd h (by simp)
  | some n =>
    dsimp only
    split
    · split
      · intro h; exact absurd h (by simp)
      · intro h
        simp only [Option.some.injEq] at h
        subst h
        simp [shownSet]
    · intro h; exact absurd h (by simp)

/-- An id already in the dedup set is never surfaced again. -/
theorem not_surfaced_of_shown (s : EngineState) (d : Snapshot) (x : String)
    (h : x ∈ shownSet s) : (handleNotification s d).surfaced ≠ some x := by
  unfold handleNotification hideNotification
  cases hn : d.notification with
  | none => simp
  | some n =>
    dsimp only
    split
    · split
      · simp
      · rename_i hmem
        simp only [ne_eq, Option.some.injEq]
        intro he
        subst he
        exact hmem h
    · simp

/-- No surfacing of an already-shown id over any sequence of snapshots. -/
theorem runSnapshots_count_zero (ds : List Snapshot) (s : EngineState) (x : String)
    (h : x ∈ shownSet s) : ((runSnapshots s ds).2.count x) = 0 := by
  induction ds generalizing s with
  | nil => simp [runSnapshots]
  | cons d ds ih =>
    simp only [runSnapshots, List.count_append]
    rw [ih _ (shownSet_mono s d x h)]
    cases hs : (handleNotification s d).surfaced with
    | none => simp
    | some y =>
      have hyx : ¬ (y == x) = true := by
        intro he
        exact not_surfaced_of_shown s d x h (by rw [hs, beq_iff_eq.mp he])
      simp [Option.toList, List.count_cons, hyx]

/-- Any id is surfaced at most once over any sequence of snapshots. -/
theorem runSnapshots_count_le_one (ds : List Snapshot) (s : EngineState) (x : String) :
    ((runSnapshots s ds).2.count x) ≤ 1 := by
  induction ds generalizing s with
  | nil => simp [runSnapshots]
  | cons d ds ih =>
    simp only [runSnapshots, List.count_append]
    cases hs : (handleNotification s d).surfaced with
    | none => simpa using ih (handleNotification s d).state
    | some y =>
      by_cases hxy : y = x
      · subst hxy
        rw [runSnapshots_count_zero ds _ y (surfaced_mem s d y hs)]
        simp [Option.toList, List.count_cons]
      · have : ¬ (y == x) = true := by simpa using hxy
        simpa [Option.toList, List.count_cons, this] using
          ih (handleNotification s d).state

/-- C1: on a snapshot whose unexpired notification id is already in the
dedup set, handleNotification surfaces nothing; and over any sequence of
snapshots (aligned polls and push-triggered fetches in any order) each
notification id is surfaced at most once per session. -/
theorem handleNotification_dedup :
    (∀ (s : EngineState) (d : Snapshot) (n : NotificationRec),
      d.has_notification = true → d.notification = some n → n.is_expired = false →
      n.id ∈ shownSet s → (handleNotification s d).surfaced = none) ∧
    (∀ (s : EngineState) (ds : List Snapshot) (x : String),
      ((runSnapshots s ds).2.count x) ≤ 1) := by
  constructor
  · intro s d n hh hn he hmem
    unfold handleNotification
    rw [hn]
    dsimp only
    rw [if_pos (by simp [hh, he])]
    split
    · rfl
    · rename_i hnot
      exact absurd hmem hnot
  · intro s ds x
    exact runSnapshots_count_le_one ds s x

/-- Witness: handleNotification_dedup on the already-shown id n1 and on a
run delivering the n1 snapshot twice from a fresh state. -/
theorem handleNotification_dedup_witness :
    (handleNotification egActive snapN1).surfaced = none ∧
    ((runSnapshots EngineState.initial [snapN1, snapN1]).2.count "n1") ≤ 1 :=
  ⟨handleNotification_dedup.1 egActive snapN1 recN1 rfl rfl rfl (by decide),
    handleNotification_dedup.2 EngineState.initial [snapN1, snapN1] "n1"⟩

/-- C2 counterexample: with notification n1 active (and already shown), a
snapshot carrying the different unexpired notification n2 makes
handleNotification overwrite the stored active id at once, contradicting
the claim that the id is not overwritten until the first notification
resolves. -/
theorem activeNotification_overwrite_counterexample :
    egActive.currentNotificationId = some "n1" ∧
    (handleNotification egActive snapN2).state.currentNotificationId = some "n2" ∧
    decide ((handleNotification egActive snapN2).state.currentNotificationId
      = some "n1") = false := by
  exact ⟨rfl, rfl, by decide⟩

/-- C2 (amended): the engine stores at most one active notification id at
a time (a single optional field), but when a snapshot carrying a second,
different unexpired notification id arrives while one is active,
handleNotification overwrites the stored active id with the new one
immediately. -/
theorem activeNotification_overwrite (s : EngineState) (d : Snapshot)
    (n : NotificationRec) (a : String) (_hcur : s.currentNotificationId = some a)
    (hhas : d.has_notification = true) (hn : d.notification = some n)
    (hexp : n.is_expired = false) :
    (handleNotification s d).state.currentNotificationId = some n.id := by
  unfold handleNotification
  rw [hn]
  dsimp only
  rw [if_pos (by simp [hhas, hexp])]
  split <;> rfl

/-- Witness: activeNotification_overwrite on the n1-active state and the
n2 snapshot. -/
theorem activeNotification_overwrite_witness :
    (handleNotification egActive snapN2).state.currentNotificationId
      = some recN2.id :=
  activeNotification_overwrite egActive snapN2 recN2 "n1" rfl rfl rfl rfl

/-- C8: every failed fetch increments the consecutive failure counter and
sets the connection to disconnected, with the connectivity alert shown
exactly when the incremented count reaches 3; three consecutive failures
from a reset counter emit exactly one alert; and any successful fetch
resets the counter to 0 and sets the connection to connected. -/
theorem fetch_failure_alert :
    (∀ (s : EngineState) (o : FetchOutcome), o.isFailure = true →
      (updateStatus s o).state.retryCount = s.retryCount + 1 ∧
      (updateStatus s o).state.isConnected = false ∧
      ((updateStatus s o).connectivityAlert = true ↔ 3 ≤ s.retryCount + 1)) ∧
    (∀ (s : EngineState) (o1 o2 o3 : FetchOutcome), s.retryCount = 0 →
      o1.isFailure = true → o2.isFailure = true → o3.isFailure = true →
      (runUpdates s [o1, o2, o3]).2 = 1) ∧
    (∀ (s : EngineState) (d : Snapshot), d.success = true →
      (updateStatus s (FetchOutcome.payload d)).state.retryCount = 0 ∧
      (updateStatus s (FetchOutcome.payload d)).state.isConnected = true) := by
  refine ⟨?_, ?_, ?_⟩
  · intro s o h
    rw [updateStatus_of_isFailure s o h]
    refine ⟨rfl, rfl, ?_⟩
    simp [updateStatusFailure]
  · intro s o1 o2 o3 h0 h1 h2 h3
    simp only [runUpdates, updateStatus_of_isFailure _ _ h1,
      updateStatus_of_isFailure _ _ h2, updateStatus_of_isFailure _ _ h3]
    simp [updateStatusFailure, h0]
  · intro s d hd
    simp only [updateStatus, hd, if_pos]
    exact ⟨handleNotification_retryCount _ _, handleNotification_isConnected _ _⟩

/-- Witness: fetch_failure_alert on a single HTTP failure from the
initial state, a run of three network failures, and one successful
snapshot. -/
theorem fetch_failure_alert_witness :
    ((updateStatus EngineState.initial (FetchOutcome.httpError 500)).state.retryCount
        = EngineState.initial.retryCount + 1 ∧
      (updateStatus EngineState.initial (FetchOutcome.httpError 500)).state.isConnected
        = false ∧
      ((updateStatus EngineState.initial (FetchOutcome.httpError 500)).connectivityAlert
          = true ↔ 3 ≤ EngineState.initial.retryCount + 1)) ∧
    (runUpdates EngineState.initial
      [FetchOutcome.networkError, FetchOutcome.networkError,
        FetchOutcome.networkError]).2 = 1 ∧
    ((updateStatus EngineState.initial (FetchOutcome.payload snapN1)).state.retryCount
        = 0 ∧
      (updateStatus EngineState.initial (FetchOutcome.payload snapN1)).state.isConnected
        = true) :=
  ⟨fetch_failure_alert.1 EngineState.initial (FetchOutcome.httpError 500) rfl,
    fetch_failure_alert.2.1 EngineState.initial FetchOutcome.networkError
      FetchOutcome.networkError FetchOutcome.networkError rfl rfl rfl rfl,
    fetch_failure_alert.2.2 EngineState.initial snapN1 rfl⟩

/-- C9 counterexample: a push event with a parseable payload, one open
foreground page and a failing system-notification display posts no
REFRESH_STATUS message at all, contradicting the claim that display
failure does not block notifying the foreground contexts. -/
theorem push_display_failure_counterexample :
    (onPush (PushEventData.parsed egPayload) false [0] 7).posted = [] ∧
    ((0 : Nat) ∈ [(0 : Nat)]) ∧
    (onPush (PushEventData.parsed egPayload) true [0] 7).posted =
      [((0 : Nat),
        ({ type := "REFRESH_STATUS", data := egPayload, timestamp := 7 } : SWOutMessage))] := by
  exact ⟨rfl, by simp, rfl⟩

/-- C9 (amended): for every push event with a parseable payload, when the
system-notification display succeeds the bridge posts a REFRESH_STATUS
message carrying the payload and a timestamp to every open foreground
page; when the display fails, the continuation is skipped and no message
is posted. -/
theorem push_posts_refresh (p : PushPayload) (clients : List Nat) (now : Nat) :
    ((onPush (PushEventData.parsed p) true clients now).posted =
      clients.map
        (fun c => (c, { type := "REFRESH_STATUS", data := p, timestamp := now }))) ∧
    (∀ c, c ∈ clients →
      ((c, ({ type := "REFRESH_STATUS", data := p, timestamp := now } : SWOutMessage)) ∈
        (onPush (PushEventData.parsed p) true clients now).posted)) ∧
    ((onPush (PushEventData.parsed p) false clients now).posted = []) := by
  refine ⟨rfl, ?_, rfl⟩
  intro c hc
  simp only [onPush, if_pos, List.mem_map]
  exact ⟨c, hc, rfl⟩

/-- Witness: push_posts_refresh posts the message to the single open
page when display succeeds. -/
theorem push_posts_refresh_witness :
    (((0 : Nat),
        ({ type := "REFRESH_STATUS", data := egPayload, timestamp := 7 } : SWOutMessage)) ∈
      (onPush (PushEventData.parsed egPayload) true [0] 7).posted) :=
  (push_posts_refresh egPayload [0] 7).2.1 0 (by simp)

/-- Clearing both stored timer handles kills every live timer and keeps
the fresh-id counter. -/
theorem clearPair_of_inv (s : SchedState) (h : SchedInv s) :
    (clearPollTimer (clearAlignmentTimeout s)).liveAligns = [] ∧
    (clearPollTimer (clearAlignmentTimeout s)).livePolls = [] ∧
    (clearPollTimer (clearAlignmentTimeout s)).nextId = s.nextId := by
  rcases h with ⟨a, hp, ha, hat, _⟩ | ⟨p, ha, hp, hpt, _⟩ | ⟨ha, hp⟩
  · cases hq : s.pollTimer <;>
      simp [clearAlignmentTimeout, clearPollTimer, hat, ha, hp, hq,
        List.erase_cons_head]
  · cases hq : s.alignmentTimeout <;>
      simp [clearAlignmentTimeout, clearPollTimer, hpt, ha, hp, hq,
        List.erase_cons_head]
  · cases hq : s.alignmentTimeout <;> cases hq2 : s.pollTimer <;>
      simp [clearAlignmentTimeout, clearPollTimer, ha, hp, hq, hq2]

/-- Restarting the scheduler from any invariant state leaves no live
repeating timer and exactly one fresh live alignment timer, whose handle
is stored. -/
theorem startAlignedPolling_of_inv (s : SchedState) (h : SchedInv s) :
    (startAlignedPolling s).livePolls = [] ∧
    (startAlignedPolling s).liveAligns = [s.nextId] ∧
    (startAlignedPolling s).alignmentTimeout = some s.nextId ∧
    (startAlignedPolling s).nextId = s.nextId + 1 := by
  obtain ⟨h1, h2, h3⟩ := clearPair_of_inv s h
  unfold startAlignedPolling scheduleFirstUpdate
  simp [h1, h2, h3]

/-- Restart preserves the scheduler invariant. -/
theorem schedInv_start (s : SchedState) (h : SchedInv s) :
    SchedInv (startAlignedPolling s) := by
  obtain ⟨h1, h2, h3, h4⟩ := startAlignedPolling_of_inv s h
  left
  exact ⟨s.nextId, h1, h2, h3, by rw [h4]; omega⟩

/-- The alignment timer firing consumes it and arms exactly one fresh
repeating timer, whose handle is stored; the alignment handle is nulled. -/
theorem alignmentFire_of_inv (s : SchedState) (id : Nat) (h : SchedInv s)
    (hmem : id ∈ s.liveAligns) :
    (alignmentFire s id).liveAligns = [] ∧
    (alignmentFire s id).livePolls = [s.nextId] ∧
    (alignmentFire s id).pollTimer = some s.nextId ∧
    (alignmentFire s id).alignmentTimeout = none ∧
    (alignmentFire s id).nextId = s.nextId + 1 := by
  rcases h with ⟨a, hp, ha, hat, _⟩ | ⟨p, ha, hp, hpt, _⟩ | ⟨ha, hp⟩
  · have hid : id = a := by rw [ha] at hmem; simpa using hmem
    subst hid
    cases hq : s.pollTimer <;>
      simp [alignmentFire, setupSelfCorrectingInterval, ha, hp, hq,
        List.erase_cons_head]
  · rw [ha] at hmem; simp at hmem
  · rw [ha] at hmem; simp at hmem

/-- Alignment firing preserves the scheduler invariant. -/
theorem schedInv_alignmentFire (s : SchedState) (id : Nat) (h : SchedInv s)
    (hmem : id ∈ s.liveAligns) : SchedInv (alignmentFire s id) := by
  obtain ⟨h1, h2, h3, _h4, h5⟩ := alignmentFire_of_inv s id h hmem
  right; left
  exact ⟨s.nextId, h1, h2, h3, by rw [h5]; omega⟩

/-- A drifted poll tick (off the boundary) kills the repeating timer and
re-arms exactly one fresh alignment timer, whose handle is stored. -/
theorem pollFire_false_of_inv (s : SchedState) (id : Nat) (h : SchedInv s)
    (hmem : id ∈ s.livePolls) :
    (pollFire s false).livePolls = [] ∧
    (pollFire s false).liveAligns = [s.nextId] ∧
    (pollFire s false).alignmentTimeout = some s.nextId ∧
    (pollFire s false).nextId = s.nextId + 1 := by
  rcases h with ⟨a, hp, ha, hat, _⟩ | ⟨p, ha, hp, hpt, _⟩ | ⟨ha, hp⟩
  · rw [hp] at hmem; simp at hmem
  · have hid : id = p := by rw [hp] at hmem; simpa using hmem
    subst hid
    simp [pollFire, scheduleFirstUpdate, ha, hp, hpt, List.erase_cons_head]
  · rw [hp] at hmem; simp at hmem

/-- A poll tick preserves the scheduler invariant. -/
theorem schedInv_pollFire (s : SchedState) (id : Nat) (b : Bool) (h : SchedInv s)
    (hmem : id ∈ s.livePolls) : SchedInv (pollFire s b) := by
  cases b with
  | true => exact h
  | false =>
    obtain ⟨h1, h2, h3, h4⟩ := pollFire_false_of_inv s id h hmem
    left
    exact ⟨s.nextId, h1, h2, h3, by rw [h4]; omega⟩

/-- Every reachable scheduler state satisfies the shape invariant. -/
theorem sched_inv (s : SchedState) (h : SchedReachable s) : SchedInv s := by
  induction h with
  | init => exact Or.inl ⟨0, rfl, rfl, rfl, by decide⟩
  | step hr hstep ih =>
    cases hstep with
    | start => exact schedInv_start _ ih
    | alignFire id hmem => exact schedInv_alignmentFire _ id ih hmem
    | pollTick id b hmem => exact schedInv_pollFire _ id b ih hmem

/-- C7: at every reachable scheduler state at most one repeating timer
and at most one alignment timer are live; a repeating-timer callback
firing off the boundary kills the repeating timer and re-arms exactly one
alignment timer; and restarting the scheduler first cancels every prior
alignment and repeating timer, arming a single fresh alignment timer. -/
theorem scheduler_no_duplicate_timers (s : SchedState) (h : SchedReachable s) :
    s.livePolls.length ≤ 1 ∧ s.liveAligns.length ≤ 1 ∧
    (∀ id, id ∈ s.livePolls →
      (pollFire s false).livePolls = [] ∧
      (pollFire s false).liveAligns = [s.nextId]) ∧
    ((startAlignedPolling s).livePolls = [] ∧
      (startAlignedPolling s).liveAligns = [s.nextId] ∧
      ∀ id, id ∈ s.liveAligns ∨ id ∈ s.livePolls → id ≠ s.nextId) := by
  have hinv := sched_inv s h
  obtain ⟨hsp1, hsp2, _, _⟩ := startAlignedPolling_of_inv s hinv
  refine ⟨?_, ?_, ?_, hsp1, hsp2, ?_⟩
  · rcases hinv with ⟨a, hp, _⟩ | ⟨p, _, hp, _⟩ | ⟨_, hp⟩ <;> simp [hp]
  · rcases hinv with ⟨a, _, ha, _⟩ | ⟨p, ha, _⟩ | ⟨ha, _⟩ <;> simp [ha]
  · intro id hmem
    obtain ⟨h1, h2, _, _⟩ := pollFire_false_of_inv s id hinv hmem
    exact ⟨h1, h2⟩
  · intro id hid
    rcases hinv with ⟨a, hp, ha, _, hlt⟩ | ⟨p, ha, hp, _, hlt⟩ | ⟨ha, hp⟩
    · rcases hid with hA | hP
      · rw [ha] at hA; simp at hA; subst hA; omega
      · rw [hp] at hP; simp at hP
    · rcases hid with hA | hP
      · rw [ha] at hA; simp at hA
      · rw [hp] at hP; simp at hP; subst hP; omega
    · rcases hid with hA | hP
      · rw [ha] at hA; simp at hA
      · rw [hp] at hP; simp at hP

/-- Witness: scheduler_no_duplicate_timers at the state reached right
after page load starts the scheduler. -/
theorem scheduler_no_duplicate_timers_witness :
    (startAlignedPolling SchedState.initial).livePolls.length ≤ 1 ∧
    (startAlignedPolling SchedState.initial).liveAligns.length ≤ 1 ∧
    (startAlignedPolling (startAlignedPolling SchedState.initial)).livePolls = [] ∧
    (startAlignedPolling (startAlignedPolling SchedState.initial)).liveAligns =
      [(startAlignedPolling SchedState.initial).nextId] :=
  ⟨(scheduler_no_duplicate_timers (startAlignedPolling SchedState.initial)
      SchedReachable.init).1,
    (scheduler_no_duplicate_timers (startAlignedPolling SchedState.initial)
      SchedReachable.init).2.1,
    (scheduler_no_duplicate_timers (startAlignedPolling SchedState.initial)
      SchedReachable.init).2.2.2.1,
    (scheduler_no_duplicate_timers (startAlignedPolling SchedState.initial)
      SchedReachable.init).2.2.2.2.1⟩

end TaxiBuffer
